import Mathlib

/-!
Verification development for the bedrock-core/docs repository: a shallow
embedding of the documented data model and behavior of the @bedrock-core/ui
framework (components, control props, hooks, the render pipeline, the
serialization protocol limits, the Suspense/snapshot scheduling model and
the input-locking model), transcribed from the Markdown pages of the
repository, together with theorems settling the frozen claims.
-/

namespace BedrockUI

/-! ## Repository inventory (docs/ pages, site config, landing component) -/

/-- Kind of a file in the repository: a Markdown documentation page, the
static-site generator configuration, or a React presentation component of
the documentation site itself. -/
inductive FileKind where
  | markdownDoc
  | siteConfig
  | reactComponent
  deriving DecidableEq, Repr

/-- A source file of the repository: its path, its kind, and the list of
top-level names it declares (empty for Markdown pages, which declare no
executable symbols). -/
structure SourceFile where
  path : String
  kind : FileKind
  declares : List String
  deriving DecidableEq, Repr

/-- The Docusaurus static-site generator configuration, provided as
unnamed/part_004: it imports the Docusaurus types and prism themes,
declares the single top-level config object and default-exports it. -/
def docusaurusConfigFile : SourceFile :=
  { path := "unnamed/part_004", kind := FileKind.siteConfig,
    declares := ["config"] }

/-- The landing-page React component of the documentation site; it declares
the feature list, the feature renderer and the exported section component. -/
def homepageFeaturesFile : SourceFile :=
  { path := "src/components/HomepageFeatures/index.tsx",
    kind := FileKind.reactComponent,
    declares := ["FeatureList", "Feature", "HomepageFeatures"] }

/-- Every provided source file of the repository, with its classification:
the seventeen named files, and the five unnamed files, which are a useExit
page variant (part_000), a useState page variant (part_001), the
installation page (part_002), the Panel page (part_003) and the Docusaurus
configuration (part_004). All files other than the site configuration and
the landing component are Markdown documentation pages declaring no
executable symbols. -/
def repoFiles : List SourceFile :=
  [ { path := "docs/ui/intro.md", kind := FileKind.markdownDoc, declares := [] },
    { path := "docs/ui/get-started/overview.md", kind := FileKind.markdownDoc, declares := [] },
    { path := "docs/ui/api/render.md", kind := FileKind.markdownDoc, declares := [] },
    { path := "docs/ui/api/createContext.md", kind := FileKind.markdownDoc, declares := [] },
    { path := "docs/ui/components/components.md", kind := FileKind.markdownDoc, declares := [] },
    { path := "docs/ui/components/control-props.md", kind := FileKind.markdownDoc, declares := [] },
    { path := "docs/ui/components/Text.md", kind := FileKind.markdownDoc, declares := [] },
    { path := "docs/ui/components/Image.md", kind := FileKind.markdownDoc, declares := [] },
    { path := "docs/ui/components/Fragment.md", kind := FileKind.markdownDoc, declares := [] },
    { path := "docs/ui/components/Suspense.md", kind := FileKind.markdownDoc, declares := [] },
    { path := "docs/ui/hooks/hooks.md", kind := FileKind.markdownDoc, declares := [] },
    { path := "docs/ui/hooks/useContext.md", kind := FileKind.markdownDoc, declares := [] },
    { path := "docs/ui/hooks/useEffect.md", kind := FileKind.markdownDoc, declares := [] },
    { path := "docs/ui/hooks/useEvent.md", kind := FileKind.markdownDoc, declares := [] },
    { path := "docs/ui/hooks/useExit.md", kind := FileKind.markdownDoc, declares := [] },
    { path := "docs/ui/hooks/usePlayer.md", kind := FileKind.markdownDoc, declares := [] },
    { path := "unnamed/part_000", kind := FileKind.markdownDoc, declares := [] },
    { path := "unnamed/part_001", kind := FileKind.markdownDoc, declares := [] },
    { path := "unnamed/part_002", kind := FileKind.markdownDoc, declares := [] },
    { path := "unnamed/part_003", kind := FileKind.markdownDoc, declares := [] },
    homepageFeaturesFile,
    docusaurusConfigFile ]

/-- The names of the documented operations of the framework: the
components, the hooks, the entry points and the serializer. None of them
may be declared by any repository file if the repository is documentation
only. -/
def documentedOperationNames : List String :=
  [ "Panel", "Text", "Button", "Image", "Fragment", "Suspense",
    "useState", "useReducer", "useContext", "useRef", "useEffect",
    "useExit", "useEvent", "usePlayer",
    "render", "createContext", "serialize" ]

/-! ## The render entry point: pipeline and documented usages -/

/-- The positioning mode of a component: relative to the parent origin or
absolute from the screen origin. -/
inductive Position where
  | relative
  | absolute
  deriving DecidableEq, Repr

/-- The control props shared by the visual components. Width and height are
required; the other props carry the documented defaults: x = 0, y = 0,
position = relative, visible = true, enabled = true. -/
structure ControlProps where
  width : Int
  height : Int
  x : Int := 0
  y : Int := 0
  position : Position := Position.relative
  visible : Bool := true
  enabled : Bool := true
  deriving DecidableEq, Repr

/-- A control prop with the defaults filled in: only width and height are
supplied. -/
def mkControl (w h : Int) : ControlProps :=
  { width := w, height := h }

/-- The name of a prop together with whether the prop is required. -/
structure PropSpec where
  name : String
  required : Bool
  deriving DecidableEq, Repr

/-- The documented control-prop table: width and height are required, the
five others are optional. -/
def controlPropSpec : List PropSpec :=
  [ { name := "width", required := true },
    { name := "height", required := true },
    { name := "x", required := false },
    { name := "y", required := false },
    { name := "position", required := false },
    { name := "visible", required := false },
    { name := "enabled", required := false } ]

/-- The documented component kinds of the framework. -/
inductive ComponentKind where
  | panel
  | text
  | button
  | image
  | fragment
  | suspense
  deriving DecidableEq, Repr

/-- Whether a component supports the control props. Panel, Text, Button and
Image inherit all standard control props; the Fragment page states that
control props are not supported and that a Fragment is not serialized; the
Suspense page documents only the fallback, awaitTimeout and children
props. -/
def supportsControlProps : ComponentKind → Bool
  | ComponentKind.panel => true
  | ComponentKind.text => true
  | ComponentKind.button => true
  | ComponentKind.image => true
  | ComponentKind.fragment => false
  | ComponentKind.suspense => false

/-- The control-prop table of a component: the standard seven control props
where supported, and no control props otherwise. -/
def componentControlProps (c : ComponentKind) : List PropSpec :=
  if supportsControlProps c then controlPropSpec else []

/-- The components documented by the repository: the five listed on the
components index page plus Suspense, which has its own component page. -/
def documentedComponents : List String :=
  ["Panel", "Text", "Button", "Image", "Fragment", "Suspense"]

/-- The hooks documented by the hooks index page. -/
def documentedHooks : List String :=
  [ "useState", "useReducer", "useContext", "useRef", "useEffect",
    "useExit", "useEvent", "usePlayer" ]

/-- The entry points documented under the api section of the docs: render
and createContext each have their own page. -/
def documentedApis : List String :=
  ["render", "createContext"]

/-- The full documented public surface of the framework. -/
def documentedSurface : List String :=
  documentedComponents ++ documentedHooks ++ documentedApis

/-- The surface asserted by the claim: the components, the hooks and the
render entry point, without createContext. -/
def claimedSurfaceC7 : List String :=
  documentedComponents ++ documentedHooks ++ ["render"]

/-! ## Serialization: byte sizes, the control block and element payloads -/

/-- UTF-8 encoding of a single character as a list of byte values. -/
def charUtf8 (ch : Char) : List Nat :=
  let n := ch.toNat
  if n < 128 then [n]
  else if n < 2048 then [192 + n / 64, 128 + n % 64]
  else if n < 65536 then [224 + n / 4096, 128 + n / 64 % 64, 128 + n % 64]
  else [240 + n / 262144, 128 + n / 4096 % 64, 128 + n / 64 % 64, 128 + n % 64]

/-- UTF-8 encoding of a string as a list of byte values. -/
def strBytes (s : String) : List Nat :=
  (s.data.map charUtf8).flatten

/-- The serialized byte size of a string. -/
def byteSize (s : String) : Nat :=
  (strBytes s).length

/-- The maximum serialized byte size of a Text value. -/
def maxTextBytes : Nat := 80

/-- The maximum serialized byte size of an Image texture path. -/
def maxTextureBytes : Nat := 32

/-- A signed coordinate encoded as an unsigned 16-bit word. -/
def word16 (v : Int) : Nat :=
  (v % 65536).toNat

/-- Decoding of an unsigned 16-bit word back into a signed coordinate. -/
def decodeWord (w : Nat) : Int :=
  if w < 32768 then (w : Int) else (w : Int) - 65536

/-- Encoding of the positioning mode as a word. -/
def encodePosition : Position → Nat
  | Position.relative => 0
  | Position.absolute => 1

/-- Encoding of a boolean flag as a word. -/
def encodeFlag (b : Bool) : Nat :=
  if b then 1 else 0

/-- The fixed-layout control block at the start of every serialized
component payload: width, height, x, y, position, visible, enabled, in this
order, each as one word. -/
def encodeControl (p : ControlProps) : List Nat :=
  [ word16 p.width, word16 p.height, word16 p.x, word16 p.y,
    encodePosition p.position, encodeFlag p.visible, encodeFlag p.enabled ]

/-- The length of the control block. -/
def controlBlockLen : Nat := 7

/-- Decoding of the control block from the start of a payload. The decoder
reads a fixed number of leading words and never inspects the component
kind. -/
def decodeControl (payload : List Nat) : Option ControlProps :=
  match payload with
  | w :: h :: xv :: yv :: pos :: vis :: en :: _ =>
      some { width := decodeWord w, height := decodeWord h,
             x := decodeWord xv, y := decodeWord yv,
             position := if pos == 1 then Position.absolute else Position.relative,
             visible := vis == 1, enabled := en == 1 }
  | _ => none

/-- A coordinate representable in one 16-bit word. -/
def wordRange (v : Int) : Prop :=
  -32768 ≤ v ∧ v < 32768

instance (v : Int) : Decidable (wordRange v) := by
  unfold wordRange
  infer_instance

/-- All four coordinates of a control-prop record are word-representable. -/
def propsInRange (p : ControlProps) : Prop :=
  wordRange p.width ∧ wordRange p.height ∧ wordRange p.x ∧ wordRange p.y

instance (p : ControlProps) : Decidable (propsInRange p) := by
  unfold propsInRange
  infer_instance

/-- A JSX element tree as it reaches the serializer: the visual components
with their control props and component-specific data, and Fragment as a
pure grouping node. -/
inductive Element where
  | panel (props : ControlProps) (children : List Element)
  | text (props : ControlProps) (value : String)
  | button (props : ControlProps) (children : List Element)
  | image (props : ControlProps) (texture : String)
  | fragment (children : List Element)

/-- The control props of an element, when it is a serialized component; a
Fragment has none. -/
def Element.control? : Element → Option ControlProps
  | Element.panel p _ => some p
  | Element.text p _ => some p
  | Element.button p _ => some p
  | Element.image p _ => some p
  | Element.fragment _ => none

/-- The opcode words of the serialized components. -/
def panelOp : Nat := 1

/-- The opcode word of a serialized Text component. -/
def textOp : Nat := 2

/-- The opcode word of a serialized Button component. -/
def buttonOp : Nat := 3

/-- The opcode word of a serialized Image component. -/
def imageOp : Nat := 4

mutual

/-- Serialization of an element tree into the compact protocol. Every
serialized component payload starts with the fixed control block, followed
by component-specific data; a Text value over 80 bytes or a texture path
over 32 bytes fails to serialize; a Fragment contributes no bytes of its
own and serializes exactly to the concatenation of its children. -/
def serializeTree : Element → Option (List Nat)
  | Element.text p v =>
      if byteSize v ≤ maxTextBytes then
        some (encodeControl p ++ textOp :: byteSize v :: strBytes v)
      else none
  | Element.image p t =>
      if byteSize t ≤ maxTextureBytes then
        some (encodeControl p ++ imageOp :: byteSize t :: strBytes t)
      else none
  | Element.panel p cs =>
      match serializeList cs with
      | some body => some (encodeControl p ++ panelOp :: body)
      | none => none
  | Element.button p cs =>
      match serializeList cs with
      | some body => some (encodeControl p ++ buttonOp :: body)
      | none => none
  | Element.fragment cs => serializeList cs

/-- Serialization of a list of sibling elements: the concatenation of their
payloads, failing if any child fails. -/
def serializeList : List Element → Option (List Nat)
  | [] => some []
  | c :: cs =>
      match serializeTree c, serializeList cs with
      | some b, some r => some (b ++ r)
      | _, _ => none

end

/-! ## Cascading of the visible and enabled props down the tree -/

/-- A component tree reduced to its visible and enabled flags. -/
inductive VTree where
  | node (visible enabled : Bool) (children : List VTree)

/-- The visible flag of the root of a tree. -/
def VTree.visibleFlag : VTree → Bool
  | VTree.node v _ _ => v

/-- The enabled flag of the root of a tree. -/
def VTree.enabledFlag : VTree → Bool
  | VTree.node _ e _ => e

/-- The children of the root of a tree. -/
def VTree.childList : VTree → List VTree
  | VTree.node _ _ cs => cs

/-- The subtree at a path of child indices, when the path exists. -/
def VTree.sub? : VTree → List Nat → Option VTree
  | t, [] => some t
  | t, i :: p =>
      match t.childList[i]? with
      | some c => VTree.sub? c p
      | none => none

/-- The effective visible and enabled flags of the node at a path, given
the flags inherited from above: at every step the inherited flags are
conjoined with the flags of the node, so an invisible or disabled ancestor
makes every descendant invisible or disabled. -/
def effectiveAt (inhV inhE : Bool) : VTree → List Nat → Option (Bool × Bool)
  | t, [] => some (inhV && t.visibleFlag, inhE && t.enabledFlag)
  | t, i :: p =>
      match t.childList[i]? with
      | some c => effectiveAt (inhV && t.visibleFlag) (inhE && t.enabledFlag) c p
      | none => none

/-- Whether some proper ancestor of the node at the given path has its
visible flag off. -/
def ancestorInvisible : VTree → List Nat → Bool
  | _, [] => false
  | t, i :: p =>
      !t.visibleFlag ||
      (match t.childList[i]? with
       | some c => ancestorInvisible c p
       | none => false)

/-- Whether some proper ancestor of the node at the given path has its
enabled flag off. -/
def ancestorDisabled : VTree → List Nat → Bool
  | _, [] => false
  | t, i :: p =>
      !t.enabledFlag ||
      (match t.childList[i]? with
       | some c => ancestorDisabled c p
       | none => false)

/-! ## Snapshot scheduling: ticks, button presses and Suspense boundaries -/

/-- A Suspense boundary during a wait: its awaitTimeout parameter, which
defaults to 20 ticks, the ticks elapsed so far and whether the state of its
children has resolved, meaning it changed from its default value. -/
structure Boundary where
  awaitTimeout : Nat := 20
  elapsed : Nat := 0
  resolved : Bool := false
  deriving DecidableEq, Repr

/-- A child state is resolved when its current value differs from its
default value. -/
def childResolved (defaultVal current : Nat) : Bool :=
  current != defaultVal

/-- A boundary is settled when its children have resolved or its
awaitTimeout has elapsed. -/
def Boundary.settled (b : Boundary) : Bool :=
  b.resolved || decide (b.awaitTimeout ≤ b.elapsed)

/-- A boundary presents its fallback exactly while it is not settled: the
fallback stops showing as soon as the children resolve or the timeout is
reached, and the main UI is presented instead. -/
def showsFallback (b : Boundary) : Bool :=
  !(Boundary.settled b)

/-- The per-player scheduler state: the state of the application logic,
which keeps executing in the background, the snapshot presented to the
player, and the pending Suspense boundaries. -/
structure SchedState where
  logic : Nat
  view : Nat
  boundaries : List Boundary
  deriving DecidableEq, Repr

/-- All boundaries of a scheduler state are settled. -/
def allSettled (s : SchedState) : Bool :=
  s.boundaries.all Boundary.settled

/-- The events driving the scheduler: a background tick, a button press by
the player, and the resolution of the child state of one boundary. -/
inductive UEvent where
  | tick
  | buttonPress
  | childStateResolved (i : Nat)
  deriving DecidableEq, Repr

/-- One elapsed tick on a boundary. -/
def tickBoundary (b : Boundary) : Boundary :=
  { b with elapsed := b.elapsed + 1 }

/-- Marking the boundary at one index as resolved. -/
def resolveBoundary (i : Nat) (bs : List Boundary) : List Boundary :=
  bs.mapIdx fun j b => if j = i then { b with resolved := true } else b

/-- The checkpoint test of the batch-rendering rule: a background update
replaces the player-visible snapshot only when every boundary has settled
and some boundary was still pending before the update. -/
def refreshIfSettled (s0 s1 : SchedState) : SchedState :=
  if allSettled s1 && !allSettled s0 then { s1 with view := s1.logic } else s1

/-- One step of the scheduler. A tick advances the application logic and
the elapsed counters but replaces the player-visible snapshot only when it
settles the last pending boundary; a button press runs the handler and
replaces the snapshot; a child resolution replaces the snapshot only when
it settles the last pending boundary. -/
def schedStep (s : SchedState) : UEvent → SchedState
  | UEvent.tick =>
      refreshIfSettled s
        { s with logic := s.logic + 1, boundaries := s.boundaries.map tickBoundary }
  | UEvent.buttonPress =>
      { s with logic := s.logic + 1, view := s.logic + 1 }
  | UEvent.childStateResolved i =>
      refreshIfSettled s { s with boundaries := resolveBoundary i s.boundaries }

/-! ## Input locking: at most one active UI per player -/

/-- The per-player UI session state: the identifiers of the UIs currently
open for the player, the input lock, and the queue of renders deferred
while locked. -/
structure PlayerSession where
  openUIs : List Nat
  locked : Bool
  queued : List Nat
  deriving DecidableEq, Repr

/-- What a render call does when it arrives while the player holds the
input lock: it replaces the open UI, or is queued, or is ignored. -/
inductive LockedPolicy where
  | replace
  | queue
  | ignore
  deriving DecidableEq, Repr

/-- The events of a UI session: a render call for a UI, the player closing
the UI, and the player dismissing the UI. -/
inductive SessionEvent where
  | renderCall (ui : Nat)
  | closeUI
  | dismissUI
  deriving DecidableEq, Repr

/-- One step of the per-player session. Showing a UI takes the input lock;
a render call while locked replaces, queues or ignores according to the
policy; closing or dismissing releases the lock. -/
def sessionStep (pol : LockedPolicy) (s : PlayerSession) : SessionEvent → PlayerSession
  | SessionEvent.renderCall ui =>
      if s.locked then
        match pol with
        | LockedPolicy.replace => { s with openUIs := [ui] }
        | LockedPolicy.queue => { s with queued := s.queued ++ [ui] }
        | LockedPolicy.ignore => s
      else
        { openUIs := [ui], locked := true, queued := s.queued }
  | SessionEvent.closeUI => { s with openUIs := [], locked := false }
  | SessionEvent.dismissUI => { s with openUIs := [], locked := false }

/-! ## Helper lemmas -/

/-- Decoding a word inverts the encoding on the representable range. -/
theorem decodeWord_word16 (v : Int) (h : wordRange v) : decodeWord (word16 v) = v := by
  obtain ⟨h1, h2⟩ := h
  unfold decodeWord word16
  split <;> omega

/-- The control-block decoder recovers the control props from the front of
any payload that starts with their encoding, for representable
coordinates. -/
theorem decodeControl_encodeControl (p : ControlProps) (h : propsInRange p)
    (rest : List Nat) : decodeControl (encodeControl p ++ rest) = some p := by
  obtain ⟨hw, hh, hx, hy⟩ := h
  cases p with
  | mk w ht x y pos vis en =>
    simp only [encodeControl, decodeControl, List.cons_append, List.nil_append,
      Option.some.injEq, ControlProps.mk.injEq]
    refine ⟨decodeWord_word16 _ hw, decodeWord_word16 _ hh, decodeWord_word16 _ hx,
      decodeWord_word16 _ hy, ?_, ?_, ?_⟩
    · cases pos <;> rfl
    · cases vis <;> rfl
    · cases en <;> rfl

/-- An inherited invisible flag makes every reachable descendant
effectively invisible. -/
theorem effectiveAt_false_visible :
    ∀ (p : List Nat) (t : VTree) (iE : Bool) (fl : Bool × Bool),
      effectiveAt false iE t p = some fl → fl.1 = false := by
  intro p
  induction p with
  | nil =>
    intro t iE fl h
    simp [effectiveAt] at h
    subst h
    rfl
  | cons i p ih =>
    intro t iE fl h
    rw [effectiveAt] at h
    cases hc : t.childList[i]? with
    | none => rw [hc] at h; cases h
    | some c =>
      rw [hc] at h
      exact ih c _ fl (by simpa using h)

/-- An inherited disabled flag makes every reachable descendant effectively
disabled. -/
theorem effectiveAt_false_enabled :
    ∀ (p : List Nat) (t : VTree) (iV : Bool) (fl : Bool × Bool),
      effectiveAt iV false t p = some fl → fl.2 = false := by
  intro p
  induction p with
  | nil =>
    intro t iV fl h
    simp [effectiveAt] at h
    subst h
    rfl
  | cons i p ih =>
    intro t iV fl h
    rw [effectiveAt] at h
    cases hc : t.childList[i]? with
    | none => rw [hc] at h; cases h
    | some c =>
      rw [hc] at h
      exact ih c _ fl (by simpa using h)

/-- The refresh rule preserves the logic state of its update argument. -/
theorem refreshIfSettled_logic (s0 s1 : SchedState) :
    (refreshIfSettled s0 s1).logic = s1.logic := by
  unfold refreshIfSettled
  split <;> rfl

/-- The refresh rule leaves the boundaries of its update argument
unchanged. -/
theorem refreshIfSettled_boundaries (s0 s1 : SchedState) :
    (refreshIfSettled s0 s1).boundaries = s1.boundaries := by
  unfold refreshIfSettled
  split <;> rfl

/-- When the refresh rule changes the view, the update settled the last
pending boundary. -/
theorem refreshIfSettled_view_ne (s0 s1 : SchedState)
    (h : (refreshIfSettled s0 s1).view ≠ s1.view) :
    allSettled s1 = true ∧ allSettled s0 = false := by
  unfold refreshIfSettled at h
  by_cases hc : (allSettled s1 && !allSettled s0) = true
  · rw [if_pos hc] at h
    simpa using hc
  · rw [if_neg hc] at h
    exact absurd rfl h

/-- The refresh rule preserves the all-settled test of its update
argument. -/
theorem allSettled_refreshIfSettled (s0 s1 : SchedState) :
    allSettled (refreshIfSettled s0 s1) = allSettled s1 := by
  unfold allSettled
  rw [refreshIfSettled_boundaries]

/-- An invisible node on the path makes the node reached at the end of the
path effectively invisible, for any inherited flags. -/
theorem cascade_visible :
    ∀ (p : List Nat) (t : VTree) (iV iE : Bool) (fl : Bool × Bool),
      ancestorInvisible t p = true → effectiveAt iV iE t p = some fl → fl.1 = false := by
  intro p
  induction p with
  | nil =>
    intro t iV iE fl ha _
    rw [ancestorInvisible] at ha
    cases ha
  | cons i p ih =>
    intro t iV iE fl ha h
    rw [effectiveAt] at h
    rw [ancestorInvisible] at ha
    cases hc : t.childList[i]? with
    | none => rw [hc] at h; cases h
    | some c =>
      rw [hc] at h
      rw [hc] at ha
      cases hv : t.visibleFlag with
      | false =>
        rw [hv, Bool.and_false] at h
        exact effectiveAt_false_visible p c _ fl h
      | true =>
        have ha2 : ancestorInvisible c p = true := by simpa [hv] using ha
        exact ih c _ _ fl ha2 h

/-- A disabled node on the path makes the node reached at the end of the
path effectively disabled, for any inherited flags. -/
theorem cascade_enabled :
    ∀ (p : List Nat) (t : VTree) (iV iE : Bool) (fl : Bool × Bool),
      ancestorDisabled t p = true → effectiveAt iV iE t p = some fl → fl.2 = false := by
  intro p
  induction p with
  | nil =>
    intro t iV iE fl ha _
    rw [ancestorDisabled] at ha
    cases ha
  | cons i p ih =>
    intro t iV iE fl ha h
    rw [effectiveAt] at h
    rw [ancestorDisabled] at ha
    cases hc : t.childList[i]? with
    | none => rw [hc] at h; cases h
    | some c =>
      rw [hc] at h
      rw [hc] at ha
      cases he : t.enabledFlag with
      | false =>
        rw [he, Bool.and_false] at h
        exact effectiveAt_false_enabled p c _ fl h
      | true =>
        have ha2 : ancestorDisabled c p = true := by simpa [he] using ha
        exact ih c _ _ fl ha2 h

/-! ## Claims -/

/-- C1: every source file of the repository is a Markdown documentation
page, the static-site generator configuration or the landing-page React
component; no file declares any of the documented operations; and the only
non-Markdown files are the Docusaurus configuration and the landing-page
component. -/
theorem c1_docs_only_repository :
    (repoFiles.all fun f =>
      (f.kind == FileKind.markdownDoc || f.kind == FileKind.siteConfig
          || f.kind == FileKind.reactComponent)
        && f.declares.all (fun n => !(documentedOperationNames.contains n))
        && (f.kind == FileKind.markdownDoc
            || f.path == "unnamed/part_004"
            || f.path == "src/components/HomepageFeatures/index.tsx")) = true := by
  decide

/-- C7 (counterexample): createContext is part of the documented public
surface, with its own page under the api section, but is absent from the
surface asserted by the claim. -/
theorem c7_createContext_documented_but_unclaimed :
    "createContext" ∈ documentedSurface ∧ "createContext" ∉ claimedSurfaceC7 := by
  decide

/-- C7 (amended): the documented public surface consists exactly of the six
components, the eight hooks, the render entry point and the createContext
entry point. -/
theorem c7_surface_amended :
    documentedSurface = claimedSurfaceC7 ++ ["createContext"]
      ∧ documentedComponents = ["Panel", "Text", "Button", "Image", "Fragment", "Suspense"]
      ∧ documentedHooks = ["useState", "useReducer", "useContext", "useRef", "useEffect",
          "useExit", "useEvent", "usePlayer"]
      ∧ documentedApis = ["render", "createContext"] := by
  refine ⟨?_, rfl, rfl, rfl⟩
  decide

/-- C3: the player-visible snapshot is replaced only at a checkpoint: if a
scheduler step changes the view, the step was a button press or it settled
the last pending Suspense boundary; meanwhile every tick keeps the
application logic executing in the background. -/
theorem c3_snapshot_replaced_only_at_checkpoints :
    (∀ (s : SchedState) (e : UEvent), (schedStep s e).view ≠ s.view →
      e = UEvent.buttonPress
        ∨ (allSettled (schedStep s e) = true ∧ allSettled s = false))
    ∧ (∀ s : SchedState, (schedStep s UEvent.tick).logic = s.logic + 1) := by
  constructor
  · intro s e h
    cases e with
    | buttonPress => exact Or.inl rfl
    | tick =>
      refine Or.inr ?_
      have h2 := refreshIfSettled_view_ne s
        { s with logic := s.logic + 1, boundaries := s.boundaries.map tickBoundary } h
      exact ⟨by rw [show schedStep s UEvent.tick = refreshIfSettled s
          { s with logic := s.logic + 1, boundaries := s.boundaries.map tickBoundary } from rfl,
          allSettled_refreshIfSettled]; exact h2.1, h2.2⟩
    | childStateResolved i =>
      refine Or.inr ?_
      have h2 := refreshIfSettled_view_ne s
        { s with boundaries := resolveBoundary i s.boundaries } h
      exact ⟨by rw [show schedStep s (UEvent.childStateResolved i) = refreshIfSettled s
          { s with boundaries := resolveBoundary i s.boundaries } from rfl,
          allSettled_refreshIfSettled]; exact h2.1, h2.2⟩
  · intro s
    rw [show schedStep s UEvent.tick = refreshIfSettled s
      { s with logic := s.logic + 1, boundaries := s.boundaries.map tickBoundary } from rfl,
      refreshIfSettled_logic]

/-- C3 (witness): a tick that settles the only pending boundary is a
checkpoint: it replaces the view, and indeed it made every boundary
settled while some boundary was pending before. -/
theorem c3_snapshot_replaced_only_at_checkpoints_witness :
    UEvent.tick = UEvent.buttonPress
      ∨ (allSettled (schedStep
            { logic := 5, view := 3,
              boundaries := [{ awaitTimeout := 1, elapsed := 0, resolved := false }] }
            UEvent.tick) = true
          ∧ allSettled
            { logic := 5, view := 3,
              boundaries := [{ awaitTimeout := 1, elapsed := 0, resolved := false }] } = false) :=
  c3_snapshot_replaced_only_at_checkpoints.1
    { logic := 5, view := 3,
      boundaries := [{ awaitTimeout := 1, elapsed := 0, resolved := false }] }
    UEvent.tick (by decide)

/-- C4: the awaitTimeout parameter of a Suspense boundary defaults to 20
ticks, and the boundary stops showing its fallback as soon as the state of
its children has resolved or awaitTimeout ticks have elapsed; conversely
the fallback only shows while the children are unresolved and the timeout
has not been reached. -/
theorem c4_awaitTimeout_bounds_wait :
    ({} : Boundary).awaitTimeout = 20
      ∧ (∀ b : Boundary, (b.resolved = true ∨ b.awaitTimeout ≤ b.elapsed) →
          showsFallback b = false)
      ∧ (∀ b : Boundary, showsFallback b = true →
          b.resolved = false ∧ b.elapsed < b.awaitTimeout) := by
  refine ⟨rfl, ?_, ?_⟩
  · intro b hb
    rcases hb with h | h
    · simp [showsFallback, Boundary.settled, h]
    · simp [showsFallback, Boundary.settled, h]
  · intro b hb
    simp only [showsFallback, Boundary.settled, Bool.not_eq_true', Bool.or_eq_false_iff,
      decide_eq_false_iff_not] at hb
    exact ⟨hb.1, by omega⟩

/-- C4 (witness): with the default parameters, a boundary whose twentieth
tick has elapsed presents the main UI even though its children never
resolved. -/
theorem c4_awaitTimeout_bounds_wait_witness :
    showsFallback { elapsed := 20 } = false :=
  c4_awaitTimeout_bounds_wait.2.1 { elapsed := 20 } (Or.inr (by decide))

/-- C5: a Text value serializes successfully exactly when its payload is at
most 80 bytes, and an Image texture path serializes successfully exactly
when it is at most 32 bytes. -/
theorem c5_payload_size_limits :
    (∀ (p : ControlProps) (v : String),
      (serializeTree (Element.text p v)).isSome = true ↔ byteSize v ≤ maxTextBytes)
    ∧ (∀ (p : ControlProps) (t : String),
      (serializeTree (Element.image p t)).isSome = true ↔ byteSize t ≤ maxTextureBytes) := by
  constructor <;> intro p s <;> simp only [serializeTree] <;> split <;> simp_all

/-- C6 (counterexample): Fragment is a documented component but supports no
control props, so not every component accepts the control props. -/
theorem c6_fragment_lacks_control_props :
    componentControlProps ComponentKind.fragment ≠ controlPropSpec := by
  decide

/-- C6 (amended): every component other than Fragment and Suspense accepts
exactly the control props width, height, x, y, position, visible and
enabled, with width and height required and the documented defaults x = 0,
y = 0, position relative, visible true, enabled true; Fragment and
Suspense accept no control props. -/
theorem c6_control_props_amended :
    (∀ c : ComponentKind, c ≠ ComponentKind.fragment → c ≠ ComponentKind.suspense →
        componentControlProps c = controlPropSpec)
      ∧ (∀ w h : Int,
          (mkControl w h).width = w ∧ (mkControl w h).height = h
            ∧ (mkControl w h).x = 0 ∧ (mkControl w h).y = 0
            ∧ (mkControl w h).position = Position.relative
            ∧ (mkControl w h).visible = true ∧ (mkControl w h).enabled = true)
      ∧ componentControlProps ComponentKind.fragment = []
      ∧ componentControlProps ComponentKind.suspense = [] := by
  refine ⟨?_, ?_, rfl, rfl⟩
  · intro c h1 h2
    cases c
    · rfl
    · rfl
    · rfl
    · rfl
    · exact absurd rfl h1
    · exact absurd rfl h2
  · intro w h
    exact ⟨rfl, rfl, rfl, rfl, rfl, rfl, rfl⟩

/-- C6 (witness): Panel accepts the standard control props, and a control
record built from width and height alone carries x = 0. -/
theorem c6_control_props_amended_witness :
    componentControlProps ComponentKind.panel = controlPropSpec
      ∧ (mkControl 300 200).x = 0 :=
  ⟨c6_control_props_amended.1 ComponentKind.panel (by decide) (by decide),
    (c6_control_props_amended.2.1 300 200).2.2.1⟩

/-- C8: the visible and enabled props cascade down the component tree: if
any proper ancestor of a node is invisible, the node is effectively
invisible regardless of its own flags, and likewise for enabled. -/
theorem c8_visible_enabled_cascade :
    (∀ (t : VTree) (p : List Nat) (fl : Bool × Bool),
      ancestorInvisible t p = true → effectiveAt true true t p = some fl → fl.1 = false)
    ∧ (∀ (t : VTree) (p : List Nat) (fl : Bool × Bool),
      ancestorDisabled t p = true → effectiveAt true true t p = some fl → fl.2 = false) :=
  ⟨fun t p fl ha h => cascade_visible p t true true fl ha h,
   fun t p fl ha h => cascade_enabled p t true true fl ha h⟩

/-- C8 (witness): a child whose own visible flag is on is effectively
invisible under an invisible root. -/
theorem c8_visible_enabled_cascade_witness :
    ancestorInvisible (VTree.node false true [VTree.node true true []]) [0] = true
      ∧ ((false, true) : Bool × Bool).1 = false :=
  ⟨by decide,
    c8_visible_enabled_cascade.1 (VTree.node false true [VTree.node true true []]) [0]
      (false, true) (by decide) (by decide)⟩

/-- C9: every serialized component payload starts with the fixed control
block, so the control props decode from the front of the payload with no
dependence on the component kind; a Fragment is not serialized at all, its
payload being exactly the concatenation of the payloads of its children. -/
theorem c9_control_block_first_and_fragment_skipped :
    (∀ (e : Element) (p : ControlProps) (out : List Nat),
      Element.control? e = some p → propsInRange p → serializeTree e = some out →
      out.take controlBlockLen = encodeControl p ∧ decodeControl out = some p)
    ∧ (∀ cs : List Element, serializeTree (Element.fragment cs) = serializeList cs) := by
  constructor
  · intro e p out hc hr hs
    cases e with
    | text p0 v =>
      obtain rfl : p0 = p := by simpa [Element.control?] using hc
      simp only [serializeTree] at hs
      split at hs
      · injection hs with h
        subst h
        exact ⟨rfl, decodeControl_encodeControl p0 hr _⟩
      · cases hs
    | image p0 t =>
      obtain rfl : p0 = p := by simpa [Element.control?] using hc
      simp only [serializeTree] at hs
      split at hs
      · injection hs with h
        subst h
        exact ⟨rfl, decodeControl_encodeControl p0 hr _⟩
      · cases hs
    | panel p0 cs =>
      obtain rfl : p0 = p := by simpa [Element.control?] using hc
      simp only [serializeTree] at hs
      cases hb : serializeList cs with
      | none => rw [hb] at hs; cases hs
      | some body =>
        rw [hb] at hs
        have hs2 : some (encodeControl p0 ++ panelOp :: body) = some out := hs
        injection hs2 with h
        subst h
        exact ⟨rfl, decodeControl_encodeControl p0 hr _⟩
    | button p0 cs =>
      obtain rfl : p0 = p := by simpa [Element.control?] using hc
      simp only [serializeTree] at hs
      cases hb : serializeList cs with
      | none => rw [hb] at hs; cases hs
      | some body =>
        rw [hb] at hs
        have hs2 : some (encodeControl p0 ++ buttonOp :: body) = some out := hs
        injection hs2 with h
        subst h
        exact ⟨rfl, decodeControl_encodeControl p0 hr _⟩
    | fragment cs => simp [Element.control?] at hc
  · intro cs
    simp only [serializeTree]

/-- C9 (witness): a concrete Text component serializes to a payload whose
first words are exactly its control block and from which the control props
decode back. -/
theorem c9_control_block_witness :
    [100, 30, 0, 0, 0, 1, 1, 2, 2, 104, 105].take controlBlockLen
        = encodeControl (mkControl 100 30)
      ∧ decodeControl [100, 30, 0, 0, 0, 1, 1, 2, 2, 104, 105] = some (mkControl 100 30) :=
  c9_control_block_first_and_fragment_skipped.1 (Element.text (mkControl 100 30) "hi")
    (mkControl 100 30) [100, 30, 0, 0, 0, 1, 1, 2, 2, 104, 105] rfl (by decide)
    (by simp only [serializeTree]; decide)

/-- C10: each player has at most one active UI at every moment: every
session step preserves the bound of one open UI; the input lock is released
only when the player closes or dismisses the UI; and a render call while
the lock is held either replaces the open UI, or is queued, or is
ignored. -/
theorem c10_input_lock_single_ui :
    (∀ (pol : LockedPolicy) (s : PlayerSession) (e : SessionEvent),
      s.openUIs.length ≤ 1 → (sessionStep pol s e).openUIs.length ≤ 1)
    ∧ (∀ (pol : LockedPolicy) (s : PlayerSession) (e : SessionEvent),
      s.locked = true → (sessionStep pol s e).locked = false →
      e = SessionEvent.closeUI ∨ e = SessionEvent.dismissUI)
    ∧ (∀ (pol : LockedPolicy) (s : PlayerSession) (ui : Nat),
      s.locked = true →
      (sessionStep pol s (SessionEvent.renderCall ui)).openUIs = [ui]
        ∨ ((sessionStep pol s (SessionEvent.renderCall ui)).openUIs = s.openUIs
            ∧ (sessionStep pol s (SessionEvent.renderCall ui)).queued = s.queued ++ [ui])
        ∨ sessionStep pol s (SessionEvent.renderCall ui) = s) := by
  refine ⟨?_, ?_, ?_⟩
  · intro pol s e h
    cases e with
    | renderCall ui =>
      by_cases hl : s.locked
      · cases pol <;> simp [sessionStep, hl] <;> exact h
      · simp [sessionStep, hl]
    | closeUI => simp [sessionStep]
    | dismissUI => simp [sessionStep]
  · intro pol s e h1 h2
    cases e with
    | renderCall ui =>
      cases pol <;> simp [sessionStep, h1] at h2
    | closeUI => exact Or.inl rfl
    | dismissUI => exact Or.inr rfl
  · intro pol s ui h1
    cases pol with
    | replace =>
      exact Or.inl (by simp [sessionStep, h1])
    | queue =>
      exact Or.inr (Or.inl ⟨by simp [sessionStep, h1], by simp [sessionStep, h1]⟩)
    | ignore =>
      exact Or.inr (Or.inr (by simp [sessionStep, h1]))

/-- C10 (witness): a render call arriving while a UI is open and the lock
is held leaves at most one UI open. -/
theorem c10_input_lock_single_ui_witness :
    (sessionStep LockedPolicy.replace
        { openUIs := [7], locked := true, queued := [] }
        (SessionEvent.renderCall 9)).openUIs.length ≤ 1 :=
  c10_input_lock_single_ui.1 LockedPolicy.replace
    { openUIs := [7], locked := true, queued := [] } (SessionEvent.renderCall 9) (by decide)

end BedrockUI
